import Mathlib

/-!
Verification of the data-search chat bot (`src/bot.py`) against its design
specification.  The embedding models:

* the JSON values the external search API can return (`Json`), with Python
  truthiness and Python string conversion where the source interpolates
  values into f-strings;
* `DataSearchBot.format_api_response` (the response formatter), including the
  dynamic-typing failure paths that Python would raise and the surrounding
  `try`/`except` would catch — modelled with `Except`;
* `DataSearchBot.call_universal_api` (the API client), over an abstract HTTP
  outcome (`HttpResult`), reporting the number of transport invocations;
* the per-chat conversation state machine wired up in `main()` via the two
  `ConversationHandler`s, as a step function `handleUpdate` over a system
  state holding the per-chat conversation states and the single shared
  `api_key` field of the bot instance.
-/

set_option autoImplicit false

namespace BotSpec

/-- Parsed JSON values, as Python's `response.json()` produces them.
Numbers are modelled as integers (no claim concerns floats); object keys are
strings, and objects are modelled as already-deduplicated association lists. -/
inductive Json where
  | null
  | bool (b : Bool)
  | num (n : Int)
  | str (s : String)
  | arr (xs : List Json)
  | obj (kvs : List (String × Json))

/-- Python truthiness of a parsed-JSON value (`if not results:` etc.). -/
def truthy : Json → Bool
  | .null => false
  | .bool b => b
  | .num n => n != 0
  | .str s => s != ""
  | .arr xs => !xs.isEmpty
  | .obj kvs => !kvs.isEmpty

/-- `dict.get(k, default)` on a parsed-JSON object. -/
def dictGet (kvs : List (String × Json)) (k : String) (default : Json) : Json :=
  match kvs.find? (fun p => p.1 == k) with
  | some p => p.2
  | none => default

/-- Python attribute access `x.get` / `x.items()` on a value that must be a
dict: any other value raises `AttributeError` (caught by the bot's
`try`/`except`). -/
def asObj : Json → Except String (List (String × Json))
  | .obj kvs => .ok kvs
  | _ => .error "AttributeError: value is not a dict"

/-- A single-quote character, used by Python `repr` of strings. -/
def squote : String := String.mk [Char.ofNat 39]

mutual

/-- Python `str()` of a parsed-JSON value, as used by the f-strings in
`format_api_response`.  (String escaping inside `repr` of containers is
elided; no API payload in the claims exercises it.) -/
def pyStr : Json → String
  | .null => "None"
  | .bool true => "True"
  | .bool false => "False"
  | .num n => toString n
  | .str s => s
  | .arr xs => "[" ++ pyReprList xs ++ "]"
  | .obj kvs => "\x7b" ++ pyReprPairs kvs ++ "\x7d"

/-- Python `repr()` of a parsed-JSON value (strings get quoted). -/
def pyRepr : Json → String
  | .null => "None"
  | .bool true => "True"
  | .bool false => "False"
  | .num n => toString n
  | .str s => squote ++ s ++ squote
  | .arr xs => "[" ++ pyReprList xs ++ "]"
  | .obj kvs => "\x7b" ++ pyReprPairs kvs ++ "\x7d"

/-- Comma-separated `repr`s of list elements. -/
def pyReprList : List Json → String
  | [] => ""
  | [j] => pyRepr j
  | j :: rest => pyRepr j ++ ", " ++ pyReprList rest

/-- Comma-separated `repr`s of dict entries. -/
def pyReprPairs : List (String × Json) → String
  | [] => ""
  | [(k, v)] => squote ++ k ++ squote ++ ": " ++ pyRepr v
  | (k, v) :: rest => squote ++ k ++ squote ++ ": " ++ pyRepr v ++ ", " ++ pyReprPairs rest

end

/-- ASCII whitespace stripped by Python `str.strip()` (space, tab, newline,
carriage return, vertical tab, form feed; the Unicode-only whitespace
code points are not exercised by any claim). -/
def isPyWhitespace (c : Char) : Bool :=
  c == ' ' || c == '\t' || c == '\n' || c == '\r' || c == '\x0b' || c == '\x0c'

/-- Python `str.strip()`: remove leading and trailing whitespace. -/
def pyStrip (s : String) : String :=
  String.mk (((s.toList.dropWhile isPyWhitespace).reverse.dropWhile isPyWhitespace).reverse)

namespace DataSearchBot

/-- The divider appended after each finding block: `"─" * 30`. -/
def divider : String := String.mk (List.replicate 30 '─')

/-- The indented detail lines `"  - {k}: {val}"` produced by the inner loop of
`format_api_response` over `details.items()`. -/
def detailLines : List (String × Json) → String
  | [] => ""
  | (k, val) :: rest => "  - " ++ k ++ ": " ++ pyStr val ++ "\n" ++ detailLines rest

/-- One iteration of the `for r in results` loop of `format_api_response`:
the text block contributed by one result record.  `r.get` on a non-dict and
`details.items()` on a truthy non-dict raise (→ `.error`), exactly as in
Python; a falsy `details` value is skipped by `if details:`. -/
def findingBlock (r : Json) : Except String String :=
  match asObj r with
  | .error e => .error e
  | .ok robj =>
    let t := dictGet robj "type" (.str "Unknown")
    let v := dictGet robj "value" (.str "N/A")
    let details := dictGet robj "details" (.obj [])
    match (if truthy details then (asObj details).map detailLines else .ok "") with
    | .error e => .error e
    | .ok dtext =>
      .ok ("📋 Type: " ++ pyStr t ++ "\n" ++ "🔎 Value: " ++ pyStr v ++ "\n" ++
        dtext ++ divider ++ "\n\n")

/-- The whole `for r in results` loop: concatenation of the blocks, aborting
at the first raised exception as Python does. -/
def renderBlocks : List Json → Except String String
  | [] => .ok ""
  | r :: rest =>
    match findingBlock r with
    | .error e => .error e
    | .ok b =>
      match renderBlocks rest with
      | .error e => .error e
      | .ok bs => .ok (b ++ bs)

/-- `DataSearchBot.format_api_response(data, query)` (src/bot.py:135-155).
`.error` is a Python exception escaping the method (the caller's
`try`/`except` turns it into the generic transport-error reply). -/
def format_api_response (data : Json) (query : String) : Except String String :=
  match asObj data with
  | .error e => .error e
  | .ok dataObj =>
    let results := dictGet dataObj "results" (.arr [])
    if truthy results then
      match results with
      | .arr xs =>
        match renderBlocks xs with
        | .error e => .error e
        | .ok blocks =>
          .ok ("🔍 Results for: " ++ query ++ "\n\n" ++ blocks ++
            "📊 Found " ++ toString xs.length ++ " results.\n\n🔴 *Credit by Smart Sunny*")
      | _ => .error "TypeError: results value is not a list of records"
    else
      .ok ("🔍 No results found for: " ++ query)

/-- Outcome of the single `requests.post` of `call_universal_api`:
either a response arrived (with its status code, and the value `response.json()`
would produce — `.error` if body parsing would raise), or the request itself
raised (connection error, timeout, …). -/
inductive HttpResult where
  | resp (status : Nat) (body : Except String Json)
  | netErr (detail : String)

/-- The unconfigured API-key sentinel (`API_KEY` env default). -/
def sentinelKey : String := "YOUR_API_KEY_HERE"

/-- `DataSearchBot.call_universal_api(query)` (src/bot.py:112-132), over the
bot's current `api_key` field and an abstract outcome `net` of the one
possible HTTP call.  Returns the reply string together with the number of
transport invocations performed (0 or 1). -/
def call_universal_api (api_key : String) (query : String) (net : HttpResult) :
    String × Nat :=
  if api_key = "" ∨ api_key = sentinelKey then
    ("❌ API not configured. Use /setapi.", 0)
  else
    match net with
    | .netErr _ => ("❌ Error contacting API.", 1)
    | .resp status body =>
      if status = 200 then
        match body with
        | .error _ => ("❌ Error contacting API.", 1)
        | .ok data =>
          match format_api_response data query with
          | .ok s => (s, 1)
          | .error _ => ("❌ Error contacting API.", 1)
      else if status = 401 then ("❌ Invalid API key.", 1)
      else if status = 402 then ("❌ API quota exceeded.", 1)
      else ("❌ API error: " ++ toString status, 1)

/-- The spec's per-session state enum (design document §3). -/
inductive ConvState where
  | IDLE
  | AWAITING_SEARCH
  | AWAITING_API_KEY
deriving DecidableEq

/-- Per-chat dispatcher state.  `main()` registers two independent
`ConversationHandler`s (src/bot.py:163-173), and each tracks its own
per-chat conversation.  The search conversation has the single non-end
state `SEARCH` and the set-api conversation the single non-end state
`API_SETUP`, so each is either inactive or in that one state:

* `inSearch`: the search conversation is active, in state `SEARCH`;
* `inApiSetup`: the set-api conversation is active, in state `API_SETUP`.

Both can be active at once — entering one flow's entry command while inside
the other flow activates the second conversation without ending the first. -/
structure ChatState where
  inSearch : Bool
  inApiSetup : Bool
deriving DecidableEq

/-- The spec-level state of a session: which handler the session's next
text message is routed to.  The search conversation is registered first
(src/bot.py:178-179), so its `SEARCH` state wins when both conversations
are active. -/
def specState (cs : ChatState) : ConvState :=
  if cs.inSearch then .AWAITING_SEARCH
  else if cs.inApiSetup then .AWAITING_API_KEY
  else .IDLE

/-- System state: the per-chat conversation states kept by the two
`ConversationHandler`s, plus the single `api_key` field of the one shared
`DataSearchBot` instance (src/bot.py:31-33,160). -/
structure SysState where
  sessions : String → ChatState
  api_key : String

/-- Update one chat's conversation state. -/
def setSession (sys : SysState) (chat : String) (st : ChatState) : SysState :=
  ⟨fun c => if c = chat then st else sys.sessions c, sys.api_key⟩

/-- The API key that governs a given chat's lookups.  In the source there is
no per-session key: `call_universal_api` reads `self.api_key` of the single
bot instance regardless of which chat the query came from (src/bot.py:113,117). -/
def sessionApiKey (sys : SysState) (_chat : String) : String := sys.api_key

/-- An inbound update from one chat: one of the state-machine-relevant
commands, or a plain text message.  (`/start` and `/help` are stateless
static replies and are outside the core per the spec.) -/
inductive Msg where
  | cmd_search
  | cmd_setapi
  | cmd_cancel
  | text (t : String)

/-- The search prompt sent by `DataSearchBot.search` (src/bot.py:73-79). -/
def searchPrompt : String :=
  "🔍 Please enter your query:\n\n" ++
  "You can enter email, phone, IP, VIN, username, etc.\n" ++
  "👉 Multiple queries? Send them line by line."

/-- One dispatch step of the handler wiring in `main()` (src/bot.py:158-183):
route the update for `chat` through the handlers in registration order
(search conversation, set-api conversation, plain-text fallback), run the
first bot method that matches, and return the new system state, the list of
`reply_text` replies sent to that chat, and the number of HTTP transport
invocations.  `net` is the outcome the one possible HTTP call would have.

Dispatch rules of the underlying library embedded here: exactly one handler
in the group consumes an update; an inactive conversation matches only its
entry command; an active conversation matches only its current state's
handlers and its fallbacks, and passes everything else on; a handler
returning `END` ends only its own conversation, leaving the other
conversation's per-chat state untouched. -/
def handleUpdate (sys : SysState) (chat : String) (m : Msg) (net : HttpResult) :
    SysState × List String × Nat :=
  let cs := sys.sessions chat
  match m with
  | .cmd_search =>
    if cs.inSearch then
      -- active search conversation: state SEARCH matches only text,
      -- fallback only `/cancel`; nothing later matches a command either
      (sys, [], 0)
    else
      -- search entry point → `DataSearchBot.search` (src/bot.py:73-79):
      -- prompt, state SEARCH (the set-api conversation is not consulted)
      (setSession sys chat { cs with inSearch := true }, [searchPrompt], 0)
  | .cmd_setapi =>
    if cs.inApiSetup then
      (sys, [], 0)
    else
      -- set-api entry point → `DataSearchBot.setup_api` (src/bot.py:102-104):
      -- prompt, state API_SETUP; an active search conversation passes
      -- `/setapi` on without ending
      (setSession sys chat { cs with inApiSetup := true },
        ["Please send your API key:"], 0)
  | .cmd_cancel =>
    if cs.inSearch then
      -- search-conversation fallback → `DataSearchBot.cancel`
      -- (src/bot.py:97-99): reply, END — only this conversation ends
      (setSession sys chat { cs with inSearch := false },
        ["❌ Operation cancelled."], 0)
    else if cs.inApiSetup then
      (setSession sys chat { cs with inApiSetup := false },
        ["❌ Operation cancelled."], 0)
    else
      -- `/cancel` is only a conversation fallback; nothing handles it here
      (sys, [], 0)
  | .text t =>
    if cs.inSearch then
      -- `DataSearchBot.perform_search` (src/bot.py:82-87): call API, reply,
      -- END for the search conversation only
      let r := call_universal_api sys.api_key (pyStrip t) net
      (setSession sys chat { cs with inSearch := false }, [r.1], r.2)
    else if cs.inApiSetup then
      -- `DataSearchBot.save_api_key` (src/bot.py:106-109):
      -- `self.api_key = update.message.text.strip()`, confirm, END
      ({ setSession sys chat { cs with inApiSetup := false } with
          api_key := pyStrip t },
        ["✅ API key updated successfully!"], 0)
    else
      -- `DataSearchBot.handle_message` (src/bot.py:90-94): unscoped text,
      -- call API, reply, no conversation state involved
      let r := call_universal_api sys.api_key (pyStrip t) net
      (sys, [r.1], r.2)

end DataSearchBot

/-! ## Spec-level data model

`SearchResult`/`Finding` as §3 of the design document types them: findings
with string `type`, string `value`, and string-to-string `details`.  The
encoder produces the JSON body shape of §6 so the formatter and API client
can be run on well-typed results. -/

/-- One structured result record, typed as the spec's data model. -/
structure Finding where
  type : String
  value : String
  details : List (String × String)

/-- JSON encoding of a finding, matching the HTTP-boundary body shape. -/
def Finding.toJson (f : Finding) : Json :=
  .obj [("type", .str f.type), ("value", .str f.value),
    ("details", .obj (f.details.map (fun p => (p.1, Json.str p.2))))]

/-- JSON encoding of a whole 200-response body `{"results": [...]}`. -/
def encodeResult (rs : List Finding) : Json :=
  .obj [("results", .arr (rs.map Finding.toJson))]

/-- The detail lines of one finding block, at the spec's types. -/
def specDetails : List (String × String) → String
  | [] => ""
  | (k, v) :: rest => "  - " ++ k ++ ": " ++ v ++ "\n" ++ specDetails rest

/-- The text block one finding contributes, at the spec's types. -/
def specBlock (f : Finding) : String :=
  "📋 Type: " ++ f.type ++ "\n" ++ "🔎 Value: " ++ f.value ++ "\n" ++
    specDetails f.details ++ DataSearchBot.divider ++ "\n\n"

/-- Concatenation of all finding blocks. -/
def specBlocks : List Finding → String
  | [] => ""
  | f :: rest => specBlock f ++ specBlocks rest

/-! ## Concrete states used to instantiate theorems -/

open DataSearchBot

/-- A system where every chat is idle and a real key is configured. -/
def wIdle : SysState := ⟨fun _ => ⟨false, false⟩, "configuredKey"⟩

/-- A system where every chat is in the search-query state. -/
def wSearch : SysState := ⟨fun _ => ⟨true, false⟩, "configuredKey"⟩

/-- A system where chat "A" awaits an API key, everyone else is idle, and
the key is still the unconfigured sentinel. -/
def sysA : SysState :=
  ⟨fun c => if c = "A" then ⟨false, true⟩ else ⟨false, false⟩, sentinelKey⟩

/-- A session reads as IDLE exactly when neither conversation is active. -/
theorem specState_eq_IDLE {cs : ChatState} :
    specState cs = .IDLE ↔ cs = ⟨false, false⟩ := by
  obtain ⟨a, b⟩ := cs
  cases a <;> cases b <;> simp [specState]

/-- A session reads as AWAITING_SEARCH exactly when the search conversation
is active. -/
theorem specState_eq_AWAITING_SEARCH {cs : ChatState} :
    specState cs = .AWAITING_SEARCH ↔ cs.inSearch = true := by
  obtain ⟨a, b⟩ := cs
  cases a <;> cases b <;> simp [specState]

/-- A session reads as AWAITING_API_KEY exactly when the set-api
conversation is active and the search conversation is not. -/
theorem specState_eq_AWAITING_API_KEY {cs : ChatState} :
    specState cs = .AWAITING_API_KEY ↔ cs = ⟨false, true⟩ := by
  obtain ⟨a, b⟩ := cs
  cases a <;> cases b <;> simp [specState]

/-! ## Theorems for the claims -/

/-- C3: for every query and every transport outcome, calling the API client
with the unconfigured sentinel key returns the not-configured reply and
performs zero transport invocations. -/
theorem claim_C3 (q : String) (net : HttpResult) :
    call_universal_api sentinelKey q net = ("❌ API not configured. Use /setapi.", 0) := by
  simp [call_universal_api]

/-- C4 as stated is false: on the empty result set the formatter returns
`"🔍 No results found for: q"`, which differs byte-for-byte from the claimed
`"no results found for: q"`. -/
theorem claim_C4_counterexample :
    format_api_response (encodeResult []) "q" = .ok "🔍 No results found for: q" ∧
    "🔍 No results found for: q" ≠ "no results found for: q" :=
  ⟨rfl, by decide⟩

/-- C4 (amended): for every query string `q`, the formatter applied to a
`SearchResult` with zero findings returns exactly
`"🔍 No results found for: " ++ q`. -/
theorem claim_C4_amended (q : String) :
    format_api_response (encodeResult []) q = .ok ("🔍 No results found for: " ++ q) :=
  rfl

/-- After `/setapi` from an idle session: the set-api conversation is
active. -/
def overlapTrace1 : SysState := (handleUpdate wIdle "A" .cmd_setapi (.netErr "")).1

/-- After `/search` on top of that: both conversations are active. -/
def overlapTrace2 : SysState := (handleUpdate overlapTrace1 "A" .cmd_search (.netErr "")).1

/-- After the search text: the search completed (a terminal handler ran),
but the set-api conversation is still awaiting a key. -/
def overlapTrace3 : SysState :=
  (handleUpdate overlapTrace2 "A" (.text "alice@example.com") (.netErr "down")).1

/-- C5 as stated is false: issue `/setapi`, then `/search`, then the search
text.  The completed search is a terminal handler, yet afterwards the
session is AWAITING_API_KEY, not IDLE — the set-api conversation was never
ended, and the session's next unscoped text is silently stored as the API
key instead of being treated as a search. -/
theorem claim_C5_counterexample :
    specState (overlapTrace3.sessions "A") = .AWAITING_API_KEY ∧
    ConvState.AWAITING_API_KEY ≠ ConvState.IDLE ∧
    (handleUpdate overlapTrace3 "A" (.text "second query") (.netErr "")).2.1 =
      ["✅ API key updated successfully!"] ∧
    ((handleUpdate overlapTrace3 "A" (.text "second query") (.netErr "")).1).api_key =
      "second query" :=
  ⟨rfl, by decide, rfl, rfl⟩

/-- C5 (amended): provided the session is not simultaneously inside both
conversation flows, every terminal handler — a completed search for every
transport outcome, a saved API key, a cancel, or an unscoped message —
leaves the session's state IDLE.  (In the overlapped configuration, reached
by issuing the other flow's entry command mid-flow, a terminal handler ends
only its own conversation and the session remains in the other flow's
state.) -/
theorem claim_C5_amended (sys : SysState) (chat t : String) (net : HttpResult)
    (h : ¬((sys.sessions chat).inSearch = true ∧ (sys.sessions chat).inApiSetup = true)) :
    specState (((handleUpdate sys chat (.text t) net).1).sessions chat) = .IDLE ∧
    specState (((handleUpdate sys chat .cmd_cancel net).1).sessions chat) = .IDLE := by
  rcases hcs : sys.sessions chat with ⟨a, b⟩
  rw [hcs] at h
  cases a <;> cases b <;>
    simp_all [handleUpdate, hcs, setSession, specState]

/-- Witness for the amended C5 at a concrete idle session. -/
theorem claim_C5_witness :
    specState (((handleUpdate wIdle "A" (.text "query") (.netErr "")).1).sessions "A") = .IDLE ∧
    specState (((handleUpdate wIdle "A" .cmd_cancel (.netErr "")).1).sessions "A") = .IDLE :=
  claim_C5_amended wIdle "A" "query" (.netErr "") (by decide)

/-- C8: for every session in IDLE, the `search` command transitions that
session's state to AWAITING_SEARCH and yields exactly one reply, the
query prompt. -/
theorem claim_C8 (sys : SysState) (chat : String) (net : HttpResult)
    (h : specState (sys.sessions chat) = .IDLE) :
    handleUpdate sys chat .cmd_search net =
      (setSession sys chat ⟨true, false⟩, [searchPrompt], 0) ∧
    specState (((handleUpdate sys chat .cmd_search net).1).sessions chat) =
      .AWAITING_SEARCH := by
  have hcs := specState_eq_IDLE.mp h
  constructor
  · simp [handleUpdate, hcs]
  · simp [handleUpdate, hcs, setSession, specState]

/-- Witness for C8 at a concrete idle system. -/
theorem claim_C8_witness :
    handleUpdate wIdle "A" .cmd_search (.netErr "") =
      (setSession wIdle "A" ⟨true, false⟩, [searchPrompt], 0) ∧
    specState (((handleUpdate wIdle "A" .cmd_search (.netErr "")).1).sessions "A") =
      .AWAITING_SEARCH :=
  claim_C8 wIdle "A" (.netErr "") rfl

/-- C9: the formatter is a pure function of its two arguments — equal inputs
give byte-identical output. -/
theorem claim_C9 (d1 d2 : Json) (q1 q2 : String) (h1 : d1 = d2) (h2 : q1 = q2) :
    format_api_response d1 q1 = format_api_response d2 q2 := by
  rw [h1, h2]

/-- Witness for C9 at a concrete input. -/
theorem claim_C9_witness :
    format_api_response (encodeResult []) "q" = format_api_response (encodeResult []) "q" :=
  claim_C9 (encodeResult []) (encodeResult []) "q" "q" rfl rfl

/-- C2: with a configured (non-empty, non-sentinel) key, the API client maps
status 401 to the invalid-key reply, 402 to the quota reply, any other
non-200 status to the upstream-error reply carrying the status code, and a
raised transport error or an unparseable 200 body to the generic
transport-error reply — each with exactly one transport invocation — and the
search handler emits exactly the one reply string the client returned. -/
theorem claim_C2 (key q : String) (status : Nat) (body : Except String Json)
    (d d2 : String) (sys : SysState) (chat t : String) (net : HttpResult)
    (h1 : key ≠ "") (h2 : key ≠ sentinelKey)
    (h3 : status ≠ 200) (h4 : status ≠ 401) (h5 : status ≠ 402)
    (hs : specState (sys.sessions chat) = .AWAITING_SEARCH) :
    call_universal_api key q (.resp 401 body) = ("❌ Invalid API key.", 1) ∧
    call_universal_api key q (.resp 402 body) = ("❌ API quota exceeded.", 1) ∧
    call_universal_api key q (.resp status body) =
      ("❌ API error: " ++ toString status, 1) ∧
    call_universal_api key q (.netErr d) = ("❌ Error contacting API.", 1) ∧
    call_universal_api key q (.resp 200 (.error d2)) = ("❌ Error contacting API.", 1) ∧
    (handleUpdate sys chat (.text t) net).2.1 =
      [(call_universal_api sys.api_key (pyStrip t) net).1] := by
  refine ⟨?_, ?_, ?_, ?_, ?_, ?_⟩
  · simp [call_universal_api, h1, h2]
  · simp [call_universal_api, h1, h2]
  · simp [call_universal_api, h1, h2, h3, h4, h5]
  · simp [call_universal_api, h1, h2]
  · simp [call_universal_api, h1, h2]
  · have hcs := specState_eq_AWAITING_SEARCH.mp hs
    simp [handleUpdate, hcs]

/-- Witness for C2 at concrete key, query, status 500 and transport
outcomes. -/
theorem claim_C2_witness :
    call_universal_api "configuredKey" "q" (.resp 401 (.ok .null)) =
      ("❌ Invalid API key.", 1) ∧
    call_universal_api "configuredKey" "q" (.resp 402 (.ok .null)) =
      ("❌ API quota exceeded.", 1) ∧
    call_universal_api "configuredKey" "q" (.resp 500 (.ok .null)) =
      ("❌ API error: " ++ toString 500, 1) ∧
    call_universal_api "configuredKey" "q" (.netErr "timeout") =
      ("❌ Error contacting API.", 1) ∧
    call_universal_api "configuredKey" "q" (.resp 200 (.error "bad json")) =
      ("❌ Error contacting API.", 1) ∧
    (handleUpdate wSearch "A" (.text "q") (.netErr "timeout")).2.1 =
      [(call_universal_api wSearch.api_key (pyStrip "q") (.netErr "timeout")).1] :=
  claim_C2 "configuredKey" "q" 500 (.ok .null) "timeout" "bad json" wSearch "A" "q"
    (.netErr "timeout") (by decide) (by decide) (by decide) (by decide) (by decide) rfl

/-- C7: a 200 response whose JSON object body has no `results` key formats
as the zero-findings message, and with a configured key the API client
returns exactly that reply. -/
theorem claim_C7 (kvs : List (String × Json)) (q key : String)
    (h : kvs.find? (fun p => p.1 == "results") = none)
    (h1 : key ≠ "") (h2 : key ≠ sentinelKey) :
    format_api_response (.obj kvs) q = .ok ("🔍 No results found for: " ++ q) ∧
    call_universal_api key q (.resp 200 (.ok (.obj kvs))) =
      ("🔍 No results found for: " ++ q, 1) := by
  have hfmt : format_api_response (.obj kvs) q = .ok ("🔍 No results found for: " ++ q) := by
    simp [format_api_response, asObj, dictGet, h, truthy]
  exact ⟨hfmt, by simp [call_universal_api, h1, h2, hfmt]⟩

/-- Witness for C7 at a concrete body without a `results` key. -/
theorem claim_C7_witness :
    format_api_response (.obj [("status", .str "ok")]) "q" =
      .ok ("🔍 No results found for: " ++ "q") ∧
    call_universal_api "configuredKey" "q" (.resp 200 (.ok (.obj [("status", .str "ok")]))) =
      ("🔍 No results found for: " ++ "q", 1) :=
  claim_C7 [("status", .str "ok")] "q" "configuredKey" rfl (by decide) (by decide)

/-- C1 as stated is false in its "(and only that session)" part: the key is
one shared field of the bot instance, so after chat "A" saves `" newkey "`,
the key governing chat "B"'s lookups is also `"newkey"`, changed from the
sentinel it had before. -/
theorem claim_C1_counterexample :
    sessionApiKey sysA "B" = "YOUR_API_KEY_HERE" ∧
    sessionApiKey ((handleUpdate sysA "A" (.text " newkey ") (.netErr "")).1) "B" = "newkey" ∧
    ("newkey" : String) ≠ "YOUR_API_KEY_HERE" :=
  ⟨rfl, rfl, by decide⟩

/-- C1 (amended): every non-command text received while a session awaits an
API key makes the process-wide shared key exactly the text stripped of
surrounding whitespace, emits exactly the confirmation reply, performs no
transport call, and returns that session's state to IDLE. -/
theorem claim_C1_amended (sys : SysState) (chat t : String) (net : HttpResult)
    (h : specState (sys.sessions chat) = .AWAITING_API_KEY) :
    ((handleUpdate sys chat (.text t) net).1).api_key = pyStrip t ∧
    specState (((handleUpdate sys chat (.text t) net).1).sessions chat) = .IDLE ∧
    (handleUpdate sys chat (.text t) net).2.1 = ["✅ API key updated successfully!"] ∧
    (handleUpdate sys chat (.text t) net).2.2 = 0 := by
  have hcs := specState_eq_AWAITING_API_KEY.mp h
  simp [handleUpdate, hcs, setSession, specState]

/-- Witness for the amended C1 at a concrete session and key text. -/
theorem claim_C1_witness :
    ((handleUpdate sysA "A" (.text " newkey ") (.netErr "")).1).api_key = pyStrip " newkey " ∧
    specState (((handleUpdate sysA "A" (.text " newkey ") (.netErr "")).1).sessions "A") =
      .IDLE ∧
    (handleUpdate sysA "A" (.text " newkey ") (.netErr "")).2.1 =
      ["✅ API key updated successfully!"] ∧
    (handleUpdate sysA "A" (.text " newkey ") (.netErr "")).2.2 = 0 :=
  claim_C1_amended sysA "A" " newkey " (.netErr "") rfl

/-- An unscoped text message in IDLE goes to `handle_message`: one API call
on the shared key, one reply, state unchanged. -/
theorem handleUpdate_text_idle (sys : SysState) (chat q : String) (net : HttpResult)
    (h : specState (sys.sessions chat) = .IDLE) :
    handleUpdate sys chat (.text q) net =
      (sys, [(call_universal_api sys.api_key (pyStrip q) net).1],
        (call_universal_api sys.api_key (pyStrip q) net).2) := by
  have hcs := specState_eq_IDLE.mp h
  simp [handleUpdate, hcs]

/-- C10: the API key is one process-wide mutable field shared by every
session — after session `s` saves key text `t`, the key governing any other
session's lookups equals `t` stripped of whitespace, and that other
session's next lookup reply is computed with that key. -/
theorem claim_C10 (sys : SysState) (s s2 t q : String) (net net2 : HttpResult)
    (h : specState (sys.sessions s) = .AWAITING_API_KEY) (hne : s2 ≠ s)
    (h2 : specState (sys.sessions s2) = .IDLE) :
    sessionApiKey ((handleUpdate sys s (.text t) net).1) s2 = pyStrip t ∧
    (handleUpdate ((handleUpdate sys s (.text t) net).1) s2 (.text q) net2).2.1 =
      [(call_universal_api (pyStrip t) (pyStrip q) net2).1] := by
  have hcs := specState_eq_AWAITING_API_KEY.mp h
  have hkey : ((handleUpdate sys s (.text t) net).1).api_key = pyStrip t := by
    simp [handleUpdate, hcs, setSession]
  have hst : specState (((handleUpdate sys s (.text t) net).1).sessions s2) = .IDLE := by
    simp [handleUpdate, hcs, setSession, hne, h2]
  refine ⟨hkey, ?_⟩
  have hstep := handleUpdate_text_idle ((handleUpdate sys s (.text t) net).1) s2 q net2 hst
  simp only [hstep, hkey]

/-- Witness for C10: chat "A" saves, chat "B" then observes the saved key in
its lookup. -/
theorem claim_C10_witness :
    sessionApiKey ((handleUpdate sysA "A" (.text " newkey ") (.netErr "")).1) "B" =
      pyStrip " newkey " ∧
    (handleUpdate ((handleUpdate sysA "A" (.text " newkey ") (.netErr "")).1) "B"
        (.text "query") (.netErr "down")).2.1 =
      [(call_universal_api (pyStrip " newkey ") (pyStrip "query") (.netErr "down")).1] :=
  claim_C10 sysA "A" "B" " newkey " "query" (.netErr "") (.netErr "down")
    rfl (by decide) rfl

/-! ## Structure of the formatter output on well-typed results (C6) -/

/-- Python `str()` is the identity on strings. -/
theorem pyStr_str (s : String) : pyStr (.str s) = s := by
  simp [pyStr]

/-- The detail-lines loop on a string-to-string mapping renders each pair as
its indented line. -/
theorem detailLines_encode (ds : List (String × String)) :
    detailLines (ds.map (fun p => (p.1, Json.str p.2))) = specDetails ds := by
  induction ds with
  | nil => rfl
  | cons p rest ih =>
    cases p
    simp [detailLines, specDetails, ih, pyStr_str, List.map]

/-- One encoded finding renders to its spec-level block. -/
theorem findingBlock_encode (f : Finding) :
    findingBlock f.toJson = .ok (specBlock f) := by
  obtain ⟨ty, v, ds⟩ := f
  cases ds with
  | nil =>
    simp [findingBlock, Finding.toJson, asObj, dictGet, truthy, specBlock,
      specDetails, pyStr_str, String.append_empty]
  | cons p rest =>
    have hdl := detailLines_encode (p :: rest)
    simp only [List.map_cons] at hdl
    simp [findingBlock, Finding.toJson, asObj, dictGet, truthy, specBlock,
      Except.map, hdl, pyStr_str]

/-- The blocks loop on an encoded result list renders the concatenation of
the spec-level blocks. -/
theorem renderBlocks_encode (rs : List Finding) :
    renderBlocks (rs.map Finding.toJson) = .ok (specBlocks rs) := by
  induction rs with
  | nil => rfl
  | cons f rest ih => simp [renderBlocks, findingBlock_encode, ih, specBlocks]

/-- C6 (amended): for every non-empty result list, the formatter produces
the results header for the query, then one block per finding with its type,
its value and one indented line per detail pair, each block terminated by
the fixed 30-character divider, then a summary line stating the count of
findings, followed by the final fixed credit line. -/
theorem claim_C6_amended (rs : List Finding) (q : String) (h : rs ≠ []) :
    format_api_response (encodeResult rs) q =
      .ok ("🔍 Results for: " ++ q ++ "\n\n" ++ specBlocks rs ++
        "📊 Found " ++ toString rs.length ++ " results.\n\n🔴 *Credit by Smart Sunny*") ∧
    divider.length = 30 := by
  obtain ⟨f, rest, rfl⟩ := List.exists_cons_of_ne_nil h
  refine ⟨?_, by decide⟩
  have hr := renderBlocks_encode (f :: rest)
  simp only [List.map_cons] at hr
  simp [format_api_response, encodeResult, asObj, dictGet, truthy, hr,
    List.length_map]

/-- Witness for the amended C6 at a one-finding result. -/
theorem claim_C6_witness :
    format_api_response (encodeResult [⟨"email", "a@b.c", [("source", "leak1")]⟩]) "q" =
      .ok ("🔍 Results for: " ++ "q" ++ "\n\n" ++
        specBlocks [⟨"email", "a@b.c", [("source", "leak1")]⟩] ++
        "📊 Found " ++ toString (List.length [(⟨"email", "a@b.c", [("source", "leak1")]⟩ : Finding)]) ++
        " results.\n\n🔴 *Credit by Smart Sunny*") ∧
    divider.length = 30 :=
  claim_C6_amended [⟨"email", "a@b.c", [("source", "leak1")]⟩] "q" (List.cons_ne_nil _ _)

/-- C6 as stated is false in its "ends with a trailing summary line" part:
on a one-finding result the output does not end with the summary line
`"📊 Found 1 results."` — a fixed credit line follows it. -/
theorem claim_C6_counterexample :
    (format_api_response (encodeResult [⟨"email", "a@b.c", [("source", "leak1")]⟩]) "q").toOption.map
        (fun s => ("📊 Found 1 results.".toList.isSuffixOf s.toList,
          "🔴 *Credit by Smart Sunny*".toList.isSuffixOf s.toList)) =
      some (false, true) := by
  decide

end BotSpec
